import Mathlib

/-!
# Verification of the qtspeech playback state machine and voice selection

Shallow embedding of the text-to-speech engine plugins of the repository:

* the deterministic mock engine (`src/plugins/tts/mock/qtexttospeech_mock.cpp`),
  whose progress is driven by a word timer, and
* the synchronous parts of the SAPI engine
  (`src/plugins/tts/sapi/qtexttospeech_sapi.cpp`).

Texts are embedded as `List Char`; the `double` rate/pitch/volume parameters
are embedded as `Rat` (the engines only store them and compare them with the
exact constants `0` and `1`, so any ordered field represents the branching of
the code faithfully). Qt signal emissions are made explicit: every operation
returns the successor engine state together with the list of events it emits,
in emission order.
-/

namespace QtSpeech

/-- The playback lifecycle state, `QTextToSpeech::State`. -/
inductive TTSState
  | ready
  | speaking
  | paused
  | error
deriving DecidableEq, Repr

/-- The error taxonomy, `QTextToSpeech::ErrorReason`. -/
inductive ErrorReason
  | noError
  | initFailure
  | configuration
  | input
deriving DecidableEq, Repr

/-- The voice gender, `QVoice::Gender`. -/
inductive Gender
  | male
  | female
  | unknownGender
deriving DecidableEq, Repr

/-- The voice age, `QVoice::Age` (only the values the engines use). -/
inductive Age
  | adult
  | otherAge
deriving DecidableEq, Repr

/-- The locales the mock engine can name: its three catalog locales
(`availableLocales`), plus a fallback standing for every `QLocale` outside
the catalog (such as the default-constructed locale that `QLocale(name)`
yields for an unparseable name). -/
inductive MockLocale
  | enGB
  | nbNO
  | fiFI
  | outside
deriving DecidableEq, Repr

/-- The `QLocale::bcp47Name` of each catalog locale. -/
def MockLocale.bcp47 : MockLocale → List Char
  | .enGB => "en-GB".toList
  | .nbNO => "nb-NO".toList
  | .fiFI => "fi-FI".toList
  | .outside => "C".toList

/-- The full `QVoice` identity tuple. Per the data model of the spec (the class
itself lives outside `src/`), voice equality compares the whole tuple, the
backend-opaque data token included; `DecidableEq` gives exactly that. -/
structure Voice where
  name : List Char
  locale : MockLocale
  gender : Gender
  age : Age
  data : List Char
deriving DecidableEq, Repr

/-- The events an engine emits toward the client, in emission order:
`stateChanged`, `sayingWord(start, length)`, `errorOccurred`. -/
inductive TTSEvent
  | stateChanged (st : TTSState)
  | sayingWord (start length : Nat)
  | errorOccurred (reason : ErrorReason) (msg : List Char)
deriving DecidableEq, Repr

/-! ## Word scanning (mock engine)

`QTextToSpeechEngineMock::timerEvent` locates the next separator run with
`m_text.indexOf(QRegularExpression("\\W+"), m_currentIndex, &match)`. The Qt
default `\W` is the complement of ASCII `[a-zA-Z0-9_]`, so a word character
is an ASCII alphanumeric or underscore. -/

/-- A regex `\w` character: ASCII alphanumeric or underscore. -/
def isWordChar (c : Char) : Bool := c.isAlphanum || c = '_'

/-- Length of the leading run of word characters (distance from the scan
start to the first `\W+` match, i.e. to `nextSpace`). -/
def scanWord : List Char → Nat
  | [] => 0
  | c :: cs => if isWordChar c then scanWord cs + 1 else 0

/-- Length of the leading run of non-word characters (the length of the
greedy `\W+` match, `match.captured().length()`; `0` when the scan is at a
word character or past the end, matching `QString::indexOf` returning `-1`
with an empty capture). -/
def scanSep : List Char → Nat
  | [] => 0
  | c :: cs => if isWordChar c then 0 else scanSep cs + 1

/-! ## The mock engine -/

/-- The state of `QTextToSpeechEngineMock`: the session text and cursor,
the activity of the word timer, the playback state, the deferred-pause flag, the
stored parameters, and the selected locale/voice. The cursor is `qsizetype`
with `-1` as the inactive sentinel, hence `Int`. The interval of the timer
(`wordTime()`, derived from the rate) does not affect which events fire or
in which order, only their wall-clock spacing, so only its activity is
modelled. -/
structure MockEngine where
  text : List Char
  currentIndex : Int
  timerActive : Bool
  state : TTSState
  pauseRequested : Bool
  rate : Rat
  pitch : Rat
  volume : Rat
  locale : MockLocale
  voice : Voice
  errorReason : ErrorReason
deriving DecidableEq, Repr

/-- From `QTextToSpeechEngineMock::availableLocales`: English (UK), Norwegian
Bokmål (Norway), Finnish (Finland). -/
def mockAvailableLocales : List MockLocale := [.enGB, .nbNO, .fiFI]

/-- From `QTextToSpeechEngineMock::availableVoices`: two voices per catalog
locale, with voice data `bcp47Name + "-1"` / `"-2"`. The `default:` branch
of the source asserts and falls through to the empty list. -/
def mockAvailableVoices : MockLocale → List Voice
  | .enGB =>
      [⟨"Bob".toList, .enGB, .male, .adult, "en-GB-1".toList⟩,
       ⟨"Anne".toList, .enGB, .female, .adult, "en-GB-2".toList⟩]
  | .nbNO =>
      [⟨"Eivind".toList, .nbNO, .male, .adult, "nb-NO-1".toList⟩,
       ⟨"Kjersti".toList, .nbNO, .female, .adult, "nb-NO-2".toList⟩]
  | .fiFI =>
      [⟨"Kari".toList, .fiFI, .male, .adult, "fi-FI-1".toList⟩,
       ⟨"Anneli".toList, .fiFI, .female, .adult, "fi-FI-2".toList⟩]
  | .outside => []

/-- The constructor `QTextToSpeechEngineMock::QTextToSpeechEngineMock`:
first locale, first voice, `Ready`, `NoError`. The member initializers live
in the header (outside `src/`): the timer starts inactive (`QBasicTimer`
default), the cursor at the `-1` sentinel, the pause flag clear; the
numeric parameter defaults are irrelevant to every claim and set to `0`. -/
def mockInit : MockEngine where
  text := []
  currentIndex := -1
  timerActive := false
  state := .ready
  pauseRequested := false
  rate := 0
  pitch := 0
  volume := 0
  locale := .enGB
  voice := ⟨"Bob".toList, .enGB, .male, .adult, "en-GB-1".toList⟩
  errorReason := .noError

/-- From `QTextToSpeechEngineMock::say`: unconditionally installs the text,
resets the cursor to `0`, starts the word timer, and enters `Speaking`,
emitting `stateChanged`. Note there is no empty-text guard here. -/
def mockSay (s : MockEngine) (text : List Char) : MockEngine × List TTSEvent :=
  ({s with text := text, currentIndex := 0, timerActive := true, state := .speaking},
   [.stateChanged .speaking])

/-- From `QTextToSpeechEngineMock::stop`: returns untouched from `Ready` and
`Error`; otherwise clears text and cursor, stops the timer and enters
`Ready`. The boundary hint is unused; `m_pauseRequested` is not touched. -/
def mockStop (s : MockEngine) : MockEngine × List TTSEvent :=
  if s.state = .ready ∨ s.state = .error then (s, [])
  else
    ({s with text := [], currentIndex := -1, timerActive := false, state := .ready},
     [.stateChanged .ready])

/-- From `QTextToSpeechEngineMock::pause`: a no-op outside `Speaking`; in
`Speaking` it only raises the deferred-pause flag ("pause after word end"),
emitting nothing. -/
def mockPause (s : MockEngine) : MockEngine × List TTSEvent :=
  if s.state ≠ .speaking then (s, [])
  else ({s with pauseRequested := true}, [])

/-- From `QTextToSpeechEngineMock::resume`: a no-op outside `Paused`; from
`Paused` it restarts the word timer (cursor untouched) and enters
`Speaking`, emitting `stateChanged`. -/
def mockResume (s : MockEngine) : MockEngine × List TTSEvent :=
  if s.state ≠ .paused then (s, [])
  else ({s with timerActive := true, state := .speaking}, [.stateChanged .speaking])

/-- From `QTextToSpeechEngineMock::setRate`: stores the rate and, when the timer
is active, restarts it with the new `wordTime()` interval — the restart
changes only the interval, so the activity of the timer is unchanged. -/
def mockSetRate (s : MockEngine) (rate : Rat) : (MockEngine × Bool) :=
  ({s with rate := rate}, true)

/-- From `QTextToSpeechEngineMock::setVolume`: rejects values outside
`[0.0, 1.0]` without storing; otherwise stores and succeeds. -/
def mockSetVolume (s : MockEngine) (volume : Rat) : (MockEngine × Bool) :=
  if volume < 0 ∨ 1 < volume then (s, false)
  else ({s with volume := volume}, true)

/-- The prefix computation `voiceId.left(voiceId.lastIndexOf("-"))` from
`QTextToSpeechEngineMock::setVoice`: the prefix before the last dash
(`QString::left` of a negative index returns the whole string, so a
dashless id is kept whole). -/
def localePrefix (voiceId : List Char) : List Char :=
  if voiceId.contains '-' then
    voiceId.take (voiceId.length - (voiceId.reverse.takeWhile (fun c => c ≠ '-')).length - 1)
  else voiceId

/-- The parse `QLocale(name)` restricted to the names the mock catalog can produce:
the three catalog bcp47 names parse to their locale, anything else to a
locale outside the catalog. -/
def parseMockLocale (name : List Char) : MockLocale :=
  if name = "en-GB".toList then .enGB
  else if name = "nb-NO".toList then .nbNO
  else if name = "fi-FI".toList then .fiFI
  else .outside

/-- From `QTextToSpeechEngineMock::setVoice`: derive the locale from the data token of the
data token; fail if it is not a catalog locale; otherwise *commit the
locale*, then fail if the voice is not an exact member of the voices for
that locale; otherwise commit the voice. -/
def mockSetVoice (s : MockEngine) (v : Voice) : (MockEngine × Bool) :=
  let vLocale := parseMockLocale (localePrefix v.data)
  if ¬ mockAvailableLocales.contains vLocale then (s, false)
  else
    let s1 := {s with locale := vLocale}
    if ¬ (mockAvailableVoices vLocale).contains v then (s1, false)
    else ({s1 with voice := v}, true)

/-- From `QTextToSpeechEngineMock::timerEvent`, one word-timer tick (the
release-mode behaviour; the function opens with
`Q_ASSERT(m_state == Speaking)` and `Q_ASSERT(m_text.length())`, captured
separately by `mockTickAssertions`): emit the word `[cursor, nextSpace)`,
advance the cursor past the separator run, then either finish (`Ready`,
timer stopped, cursor `-1`), honour a pending pause (`Paused`, timer
stopped), or keep speaking; the pause flag is cleared in every branch. -/
def mockTick (s : MockEngine) : MockEngine × List TTSEvent :=
  let i := s.currentIndex.toNat
  let w := scanWord (s.text.drop i)
  let sep := scanSep (s.text.drop (i + w))
  let next : Nat := i + w + sep
  if s.text.length ≤ next then
    ({s with timerActive := false, state := .ready, currentIndex := -1,
             pauseRequested := false},
     [.sayingWord i w, .stateChanged .ready])
  else if s.pauseRequested then
    ({s with timerActive := false, state := .paused, currentIndex := (next : Int),
             pauseRequested := false},
     [.sayingWord i w, .stateChanged .paused])
  else
    ({s with currentIndex := (next : Int), pauseRequested := false},
     [.sayingWord i w])

/-- The two `Q_ASSERT`s guarding `timerEvent`: the tick must find the
engine `Speaking` with a non-empty session text. -/
def mockTickAssertions (s : MockEngine) : Prop :=
  s.state = .speaking ∧ s.text ≠ []

/-- Iterate word-timer ticks while the timer is active, collecting the
emitted events; `fuel` bounds the number of ticks (the timer fires only
while active, so an inactive timer ends the run). -/
def mockRun : Nat → MockEngine → MockEngine × List TTSEvent
  | 0, s => (s, [])
  | fuel + 1, s =>
      if s.timerActive then
        let step := mockTick s
        let rest := mockRun fuel step.1
        (rest.1, step.2 ++ rest.2)
      else (s, [])

/-! ## Word spans

Specification-level description of the event stream the timer produces:
`spans t i` lists the `(start, length)` pairs of the ticks from cursor `i`
(each tick emits the run of word characters at the cursor, then jumps the
separator run), while `wordSpans t i` lists the maximal word-character runs
of `t` at positions `≥ i` — the "word-like spans" of the specification. -/

/-- The cursor advance of one tick, measured on the suffix at the cursor:
the word run plus the following separator run. -/
def stepLen (l : List Char) : Nat := scanWord l + scanSep (l.drop (scanWord l))

/-- Whether the character at position `i` of `t` is a word character
(`false` past the end). -/
def wordCharAt (t : List Char) (i : Nat) : Bool := isWordChar (t.getD i ' ')

/-- The `(start, length)` pairs of the word-boundary events the iterated
tick emits from cursor `i`. -/
def spans (t : List Char) (i : Nat) : List (Nat × Nat) :=
  if _h : i < t.length then
    (i, scanWord (t.drop i)) :: spans t (i + stepLen (t.drop i))
  else []
termination_by t.length - i
decreasing_by
  have hne : t.drop i ≠ [] := by
    intro hnil
    have hlen := List.length_drop i t
    rw [hnil] at hlen
    simp at hlen
    omega
  have hpos : 0 < stepLen (t.drop i) := by
    rcases hd : t.drop i with _ | ⟨c, cs⟩
    · exact absurd hd hne
    · by_cases hc : isWordChar c
      · simp [stepLen, scanWord, hc]
      · simp [stepLen, scanWord, scanSep, hc]
  omega

/-- The maximal word-character runs of `t` starting at or after `i`: the
word-like spans of the text. -/
def wordSpans (t : List Char) (i : Nat) : List (Nat × Nat) :=
  if h : i < t.length then
    if hw : wordCharAt t i then
      (i, scanWord (t.drop i)) :: wordSpans t (i + scanWord (t.drop i))
    else wordSpans t (i + 1)
  else []
termination_by t.length - i
decreasing_by
  · have hpos : 0 < scanWord (t.drop i) := by
      rw [List.drop_eq_getElem_cons h]
      have hg : isWordChar t[i] = true := by
        unfold wordCharAt at hw
        rwa [List.getD_eq_getElem t ' ' h] at hw
      simp [scanWord, hg]
    omega
  · omega

/-! ## The SAPI engine (synchronous parts)

`QTextToSpeechEngineSapi` delegates audio to the native `ISpVoice`; its
asynchronous notification stream (`NotifyCallback`) is driven by the
synthesizer. The claims touch only the synchronous command logic, embedded
here: the stored state/flags, the error bookkeeping and the return values.
The native volume is the `USHORT` held by the voice (`SetVolume` receives
`volume * 100` through the truncating `double → USHORT` conversion, and
`volume()` reads it back as `baseVolume / 100.0`), and the native voice
selection is the token id committed by `SetVoice`. Outcomes of native calls
that can genuinely fail (`SpCreateNewToken`) enter as explicit boolean
parameters. -/

structure SapiEngine where
  state : TTSState
  pauseRequested : Bool
  errorReason : ErrorReason
  errorString : List Char
  nativeVolume : Nat
  nativeVoiceId : List Char
  currentText : List Char
deriving DecidableEq, Repr

/-- A successfully constructed SAPI engine (the happy path of the constructor:
voices found, `Ready`, `NoError`). -/
def sapiReady : SapiEngine where
  state := .ready
  pauseRequested := false
  errorReason := .noError
  errorString := []
  nativeVolume := 100
  nativeVoiceId := []
  currentText := []

/-- From `QTextToSpeechEngineSapi::setError`, exactly as written: store the
reason and message, then `if (reason != QTextToSpeech::ErrorReason::NoError)
return;` — so a real error returns before the state transition and the
`errorOccurred` emission, which are reached only for `NoError`. -/
def sapiSetError (s : SapiEngine) (reason : ErrorReason) (msg : List Char) :
    SapiEngine × List TTSEvent :=
  let s1 := {s with errorReason := reason, errorString := msg}
  if reason ≠ .noError then (s1, [])
  else if s1.state ≠ .error then
    ({s1 with state := .error}, [.stateChanged .error, .errorOccurred reason msg])
  else (s1, [.errorOccurred reason msg])

/-- From `QTextToSpeechEngineSapi::setVolume`: no range check — forwards
`volume * 100` to `ISpVoice::SetVolume`, whose parameter is a `USHORT`:
the `double → USHORT` conversion truncates toward zero (for a non-negative
argument that is the floor), and for a negative or overflowing argument
(`volume * 100` outside `[0, 65536)`) the C++ conversion is undefined, so
the stored value is meaningful only inside that range. Returns `true`
unconditionally. -/
def sapiSetVolume (s : SapiEngine) (volume : Rat) : (SapiEngine × Bool) :=
  ({s with nativeVolume := (⌊volume * 100⌋).toNat}, true)

/-- From `QTextToSpeechEngineSapi::volume`: reads the native `USHORT` back
as `baseVolume / 100.0` — hundredth-granular and never negative. -/
def sapiVolume (s : SapiEngine) : Rat := (s.nativeVolume : Rat) / 100

/-- From `QTextToSpeechEngineSapi::resume`: acts when the state is `Paused` *or*
a pause is merely pending, clearing the pending flag and calling the native
`ISpVoice::Resume` (the boolean reports whether that native call happened). -/
def sapiResume (s : SapiEngine) : SapiEngine × Bool :=
  if s.pauseRequested || s.state = .paused then
    ({s with pauseRequested := false}, true)
  else (s, false)

/-- From `QTextToSpeechEngineSapi::stop`: resume first when paused or
pause-pending, purge the native queue, clear the session text. -/
def sapiStop (s : SapiEngine) : SapiEngine :=
  let s1 := if s.state = .paused || s.pauseRequested then (sapiResume s).1 else s
  {s1 with currentText := []}

/-- From `QTextToSpeechEngineSapi::say`, synchronous part: empty text returns
immediately; otherwise stop when not `Ready`, commit the session text and
issue the asynchronous native `Speak` (the injected pitch-control prefix,
its `textOffset` bookkeeping, and the external failure path of the native
call are elided — no claim depends on them). -/
def sapiSay (s : SapiEngine) (text : List Char) : SapiEngine × List TTSEvent :=
  if text = [] then (s, [])
  else
    let s1 := if s.state ≠ .ready then sapiStop s else s
    ({s1 with currentText := text}, [])

/-- From `QTextToSpeechEngineSapi::setVoice`: convert the data token of the
voice to a wide string and force-create a native token for it via
`SpCreateNewToken` (`fCreateIfNotExist = TRUE` — the id need not belong to
any enumerated voice). `created` is the outcome of that external native
call: on failure, record a `Configuration` error through `setError` and
fail; on success, reset a non-`Ready` engine to `Ready` (emitting
`stateChanged`), commit the token to the native voice and succeed. No
catalog membership is checked anywhere. -/
def sapiSetVoice (created : Bool) (s : SapiEngine) (v : Voice) :
    SapiEngine × Bool × List TTSEvent :=
  if ¬ created then
    let res := sapiSetError s .configuration ("Could not set voice.".toList)
    (res.1, false, res.2)
  else
    let (s1, evs) :=
      if s.state ≠ .ready then
        ({s with state := .ready}, [TTSEvent.stateChanged .ready])
      else (s, ([] : List TTSEvent))
    ({s1 with nativeVoiceId := v.data}, true, evs)

/-- The central timing invariant of the deterministic engine: the word timer is
running exactly while the engine is `Speaking`. -/
def timerInv (s : MockEngine) : Prop := s.timerActive = true ↔ s.state = .speaking

/-- A SAPI engine observed between `pause()` and the notification that
commits the pause: still `Speaking`, pause pending. -/
def sapiPausePending : SapiEngine :=
  {sapiReady with state := .speaking, pauseRequested := true}

/-! ## Scanning lemmas -/

theorem drop_eq_getD_cons {t : List Char} {i : Nat} (h : i < t.length) :
    t.drop i = t.getD i ' ' :: t.drop (i + 1) := by
  rw [List.drop_eq_getElem_cons h, List.getD_eq_getElem t ' ' h]

theorem scanWord_drop_of_word {t : List Char} {i : Nat} (h : i < t.length)
    (hw : wordCharAt t i = true) :
    scanWord (t.drop i) = scanWord (t.drop (i + 1)) + 1 := by
  unfold wordCharAt at hw
  rw [drop_eq_getD_cons h]
  simp only [scanWord]
  rw [hw]
  simp

theorem scanWord_drop_of_sep {t : List Char} {i : Nat} (h : i < t.length)
    (hw : wordCharAt t i = false) :
    scanWord (t.drop i) = 0 := by
  unfold wordCharAt at hw
  rw [drop_eq_getD_cons h]
  simp only [scanWord]
  rw [hw]
  simp

theorem scanSep_drop_of_word {t : List Char} {i : Nat} (h : i < t.length)
    (hw : wordCharAt t i = true) :
    scanSep (t.drop i) = 0 := by
  unfold wordCharAt at hw
  rw [drop_eq_getD_cons h]
  simp only [scanSep]
  rw [hw]
  simp

theorem scanSep_drop_of_sep {t : List Char} {i : Nat} (h : i < t.length)
    (hw : wordCharAt t i = false) :
    scanSep (t.drop i) = scanSep (t.drop (i + 1)) + 1 := by
  unfold wordCharAt at hw
  rw [drop_eq_getD_cons h]
  simp only [scanSep]
  rw [hw]
  simp

theorem stepLen_drop (t : List Char) (n : Nat) :
    stepLen (t.drop n) =
      scanWord (t.drop n) + scanSep (t.drop (n + scanWord (t.drop n))) := by
  unfold stepLen
  rw [List.drop_drop]

theorem stepLen_drop_pos {t : List Char} {n : Nat} (h : n < t.length) :
    0 < stepLen (t.drop n) := by
  by_cases hw : wordCharAt t n = true
  · have := scanWord_drop_of_word h hw
    rw [stepLen_drop]
    omega
  · have hw' : wordCharAt t n = false := by simpa using hw
    have h0 := scanWord_drop_of_sep h hw'
    have h1 := scanSep_drop_of_sep h hw'
    rw [stepLen_drop, h0]
    simp only [Nat.add_zero]
    omega

/-! ## Unfolding lemmas for `spans` and `wordSpans` -/

theorem spans_stop {t : List Char} {n : Nat} (h : t.length ≤ n) : spans t n = [] := by
  rw [spans]
  simp [Nat.not_lt.mpr h]

theorem spans_cons {t : List Char} {n : Nat} (h : n < t.length) :
    spans t n = (n, scanWord (t.drop n)) :: spans t (n + stepLen (t.drop n)) := by
  conv_lhs => rw [spans]
  simp [h]

theorem wordSpans_stop {t : List Char} {n : Nat} (h : t.length ≤ n) :
    wordSpans t n = [] := by
  rw [wordSpans]
  simp [Nat.not_lt.mpr h]

theorem wordSpans_word {t : List Char} {n : Nat} (h : n < t.length)
    (hw : wordCharAt t n = true) :
    wordSpans t n = (n, scanWord (t.drop n)) :: wordSpans t (n + scanWord (t.drop n)) := by
  conv_lhs => rw [wordSpans]
  simp [h, hw]

theorem wordSpans_sep {t : List Char} {n : Nat} (h : n < t.length)
    (hw : wordCharAt t n = false) :
    wordSpans t n = wordSpans t (n + 1) := by
  conv_lhs => rw [wordSpans]
  simp [h, hw]

/-! ## Relating tick spans to word-like spans -/

/-- Skipping a separator run does not change the word-like spans. -/
theorem wordSpans_sep_skip (t : List Char) (n : Nat) :
    wordSpans t (n + scanSep (t.drop n)) = wordSpans t n := by
  by_cases h : n < t.length
  · by_cases hw : wordCharAt t n = true
    · rw [scanSep_drop_of_word h hw]
      simp
    · have hw' : wordCharAt t n = false := by simpa using hw
      have hsep := scanSep_drop_of_sep h hw'
      have harith : n + scanSep (t.drop n) = (n + 1) + scanSep (t.drop (n + 1)) := by
        rw [hsep]
        omega
      rw [harith, wordSpans_sep_skip t (n + 1), wordSpans_sep h hw']
  · have hnil : t.drop n = [] := List.drop_eq_nil_of_le (by omega)
    rw [hnil]
    simp [scanSep]
termination_by t.length - n
decreasing_by omega

/-- The position right after a separator run is past the end of the text or
carries a word character. -/
theorem wordCharAt_after_sep (t : List Char) (n : Nat)
    (h : n + scanSep (t.drop n) < t.length) :
    wordCharAt t (n + scanSep (t.drop n)) = true := by
  by_cases hn : n < t.length
  · by_cases hw : wordCharAt t n = true
    · rw [scanSep_drop_of_word hn hw]
      simpa using hw
    · have hw' : wordCharAt t n = false := by simpa using hw
      have hsep := scanSep_drop_of_sep hn hw'
      have harith : n + scanSep (t.drop n) = (n + 1) + scanSep (t.drop (n + 1)) := by
        rw [hsep]
        omega
      rw [harith] at h ⊢
      exact wordCharAt_after_sep t (n + 1) h
  · have hnil : t.drop n = [] := List.drop_eq_nil_of_le (by omega)
    rw [hnil] at h
    simp [scanSep] at h
    omega
termination_by t.length - n
decreasing_by omega

/-- From the end of the text or a word-character position, the tick spans
are exactly the word-like spans. -/
theorem spans_eq_wordSpans (t : List Char) (n : Nat)
    (hn : t.length ≤ n ∨ wordCharAt t n = true) :
    spans t n = wordSpans t n := by
  by_cases h : n < t.length
  · have hw : wordCharAt t n = true := by
      rcases hn with hle | hw
      · omega
      · exact hw
    have hwpos : 0 < scanWord (t.drop n) := by
      rw [scanWord_drop_of_word h hw]
      omega
    rw [spans_cons h, wordSpans_word h hw, stepLen_drop]
    refine congrArg _ ?_
    have harith : n + (scanWord (t.drop n) + scanSep (t.drop (n + scanWord (t.drop n)))) =
        (n + scanWord (t.drop n)) + scanSep (t.drop (n + scanWord (t.drop n))) := by
      omega
    rw [harith]
    rw [spans_eq_wordSpans t ((n + scanWord (t.drop n)) + scanSep (t.drop (n + scanWord (t.drop n))))]
    · exact wordSpans_sep_skip t (n + scanWord (t.drop n))
    · by_cases hend : (n + scanWord (t.drop n)) + scanSep (t.drop (n + scanWord (t.drop n))) < t.length
      · exact Or.inr (wordCharAt_after_sep t (n + scanWord (t.drop n)) hend)
      · exact Or.inl (by omega)
  · rw [spans_stop (by omega), wordSpans_stop (by omega)]
termination_by t.length - n
decreasing_by omega

/-- The tick spans of a whole nonempty text: the word-like spans, preceded
by one zero-length span when the text opens with a separator. -/
theorem spans_zero (t : List Char) (hne : t ≠ []) :
    spans t 0 = (if wordCharAt t 0 then [] else [(0, 0)]) ++ wordSpans t 0 := by
  have h0 : 0 < t.length := List.length_pos.mpr hne
  by_cases hw : wordCharAt t 0 = true
  · rw [spans_eq_wordSpans t 0 (Or.inr hw)]
    simp [hw]
  · have hw' : wordCharAt t 0 = false := by simpa using hw
    rw [spans_cons h0, stepLen_drop, scanWord_drop_of_sep h0 hw']
    have harith : 0 + (0 + scanSep (t.drop (0 + 0))) = 0 + scanSep (t.drop 0) := by
      simp
    rw [harith]
    rw [spans_eq_wordSpans t (0 + scanSep (t.drop 0))]
    · rw [wordSpans_sep_skip t 0]
      simp [hw']
    · by_cases hend : 0 + scanSep (t.drop 0) < t.length
      · exact Or.inr (wordCharAt_after_sep t 0 hend)
      · exact Or.inl (by omega)

/-! ## Behaviour of the iterated tick -/

/-- With the timer stopped, no tick fires and no event is emitted. -/
theorem mockRun_inactive (fuel : Nat) (s : MockEngine) (h : s.timerActive = false) :
    mockRun fuel s = (s, []) := by
  cases fuel <;> simp [mockRun, h]

/-- The complete behaviour of the tick loop from a `Speaking` state with no
pause pending: it terminates within `t.length - i` ticks, returns to
`Ready` with the timer stopped and the cursor at the sentinel, and emits
one word-boundary event per element of `spans t i` followed by the final
`stateChanged`. -/
theorem mockRun_speaking :
    ∀ (fuel : Nat) (t : List Char) (i : Nat) (r p v : Rat) (loc : MockLocale)
      (vo : Voice) (er : ErrorReason),
      i < t.length → t.length - i ≤ fuel →
      mockRun fuel ⟨t, (i : Int), true, .speaking, false, r, p, v, loc, vo, er⟩ =
        (⟨t, -1, false, .ready, false, r, p, v, loc, vo, er⟩,
         (spans t i).map (fun q => TTSEvent.sayingWord q.1 q.2) ++
           [TTSEvent.stateChanged .ready]) := by
  intro fuel
  induction fuel with
  | zero =>
      intro t i r p v loc vo er hi hf
      omega
  | succ fuel ih =>
      intro t i r p v loc vo er hi hf
      have htick : mockTick ⟨t, (i : Int), true, .speaking, false, r, p, v, loc, vo, er⟩ =
          (if t.length ≤ i + scanWord (t.drop i) +
                scanSep (t.drop (i + scanWord (t.drop i))) then
            (⟨t, -1, false, .ready, false, r, p, v, loc, vo, er⟩,
             [TTSEvent.sayingWord i (scanWord (t.drop i)),
              TTSEvent.stateChanged .ready])
          else
            (⟨t, ((i + scanWord (t.drop i) +
                   scanSep (t.drop (i + scanWord (t.drop i))) : Nat) : Int),
              true, .speaking, false, r, p, v, loc, vo, er⟩,
             [TTSEvent.sayingWord i (scanWord (t.drop i))])) := by
        simp only [mockTick, Int.toNat_ofNat]
        rfl
      have hstep : i + stepLen (t.drop i) =
          i + scanWord (t.drop i) + scanSep (t.drop (i + scanWord (t.drop i))) := by
        rw [stepLen_drop]
        omega
      rw [mockRun]
      simp only [if_pos rfl]
      by_cases hdone : t.length ≤ i + scanWord (t.drop i) +
          scanSep (t.drop (i + scanWord (t.drop i)))
      · rw [htick, if_pos hdone]
        rw [mockRun_inactive fuel _ rfl]
        rw [spans_cons hi, hstep, spans_stop hdone]
        rfl
      · rw [htick, if_neg hdone]
        rw [ih t (i + scanWord (t.drop i) + scanSep (t.drop (i + scanWord (t.drop i))))
              r p v loc vo er (by omega) ?_]
        · rw [spans_cons hi, hstep]
          rfl
        · have hpos : 0 < stepLen (t.drop i) := stepLen_drop_pos hi
          omega

/-! ## The claims -/

/-- C1: `pause()` while `Speaking` does not change the observable state at
the time of the call — it only raises the pending-pause flag and emits
nothing; `pause()` while `Ready`, `Paused` or `Error` leaves the entire
engine (state and error record included) unchanged; and a tick that lands
in `Paused` emits its word-boundary event before the `Paused` state-change
notification, so `Paused` becomes observable only after that event. -/
theorem pause_deferred_spec (s : MockEngine) :
    (s.state = .speaking → mockPause s = ({s with pauseRequested := true}, [])) ∧
    (s.state ≠ .speaking → mockPause s = (s, [])) ∧
    (s.state = .speaking → (mockTick s).1.state = .paused →
      (mockTick s).2 =
        [TTSEvent.sayingWord s.currentIndex.toNat
           (scanWord (s.text.drop s.currentIndex.toNat)),
         TTSEvent.stateChanged .paused]) := by
  refine ⟨?_, ?_, ?_⟩
  · intro h
    simp [mockPause, h]
  · intro h
    simp [mockPause, h]
  · intro hsp hp
    simp only [mockTick] at hp ⊢
    split_ifs at hp ⊢ with h1 h2
    all_goals simp_all

/-- C1 witness: from the `Speaking` state reached by `say "ab cd"`,
`pause()` only raises the flag. -/
theorem pause_deferred_spec_witness :
    mockPause (mockSay mockInit ("ab cd".toList)).1 =
      ({(mockSay mockInit ("ab cd".toList)).1 with pauseRequested := true}, []) :=
  (pause_deferred_spec (mockSay mockInit ("ab cd".toList)).1).1 rfl

/-- C2 counterexample: after `say "ab cd"`, `pause()`, `stop()`, the engine
is back in `Ready` but the pending-pause flag is still raised — `stop()`
does not clear it, contradicting "clears … any pending timers/flags". -/
theorem stop_pending_pause_counterexample :
    (mockStop (mockPause (mockSay mockInit ("ab cd".toList)).1).1).1.state = .ready ∧
    (mockStop (mockPause (mockSay mockInit ("ab cd".toList)).1).1).1.pauseRequested = true := by
  decide

/-- C2 amended: `stop()` from `Speaking` or `Paused` synchronously yields
`Ready`, clearing text, cursor and timer — but not the pending-pause flag;
from `Ready` or `Error` it changes nothing at all (in particular the state
stays `Error`); it is idempotent; and after a stop from `Speaking`/`Paused`
the timer is inactive, so no word-boundary event of the interrupted
utterance can fire. -/
theorem stop_spec_amended (s : MockEngine) :
    (s.state = .speaking ∨ s.state = .paused →
      mockStop s =
        ({s with text := [], currentIndex := -1, timerActive := false, state := .ready},
         [TTSEvent.stateChanged .ready])) ∧
    (s.state = .ready ∨ s.state = .error → mockStop s = (s, [])) ∧
    mockStop (mockStop s).1 = ((mockStop s).1, []) ∧
    (s.state = .speaking ∨ s.state = .paused →
      (mockStop s).1.timerActive = false ∧
      ∀ fuel, mockRun fuel (mockStop s).1 = ((mockStop s).1, [])) := by
  refine ⟨?_, ?_, ?_, ?_⟩
  · intro h
    rcases h with h | h <;> simp [mockStop, h]
  · intro h
    rcases h with h | h <;> simp [mockStop, h]
  · by_cases h : s.state = .ready ∨ s.state = .error
    · simp [mockStop, h]
    · simp [mockStop, h]
  · intro h
    have hta : (mockStop s).1.timerActive = false := by
      rcases h with h | h <;> simp [mockStop, h]
    exact ⟨hta, fun fuel => mockRun_inactive fuel _ hta⟩

/-- C2 witness: stopping the `Speaking` engine reached by `say "ab"`. -/
theorem stop_spec_amended_witness :
    mockStop (mockSay mockInit ("ab".toList)).1 =
      ({(mockSay mockInit ("ab".toList)).1 with
          text := [], currentIndex := -1, timerActive := false, state := .ready},
       [TTSEvent.stateChanged .ready]) :=
  (stop_spec_amended (mockSay mockInit ("ab".toList)).1).1 (Or.inl rfl)

/-- C3 counterexample: the text `" "` consists of separator characters
only — it has no word-like span — yet the utterance emits the
word-boundary event `(0, 0)`. -/
theorem say_separator_event_counterexample :
    ((" ".toList).all fun c => !(isWordChar c)) = true ∧
    (mockRun 1 (mockSay mockInit (" ".toList)).1).2 =
      [TTSEvent.sayingWord 0 0, TTSEvent.stateChanged .ready] := by
  decide

/-- C3 amended: for every non-empty text `T`, `say T` from a `Ready` engine
with no stale pending pause transitions to `Speaking` (emitting
`stateChanged`), and the tick loop terminates within `length T` ticks back
in `Ready` with the timer stopped and the cursor at the sentinel, having
emitted exactly one word-boundary event per word-like span of `T` — plus
one extra zero-length event at position 0 when `T` opens with a separator
character — followed by the final `stateChanged`. -/
theorem say_terminates_events_amended (t : List Char) (s : MockEngine)
    (hne : t ≠ []) (hready : s.state = .ready) (hpr : s.pauseRequested = false) :
    (mockSay s t).2 = [TTSEvent.stateChanged .speaking] ∧
    (mockSay s t).1.state = .speaking ∧
    (mockRun t.length (mockSay s t).1).1.state = .ready ∧
    (mockRun t.length (mockSay s t).1).1.timerActive = false ∧
    (mockRun t.length (mockSay s t).1).1.currentIndex = -1 ∧
    (mockRun t.length (mockSay s t).1).2 =
      ((if wordCharAt t 0 then ([] : List (Nat × Nat)) else [(0, 0)]) ++ wordSpans t 0).map
        (fun q => TTSEvent.sayingWord q.1 q.2) ++ [TTSEvent.stateChanged .ready] := by
  obtain ⟨tx, ci, ta, st, pr, r, p, v, loc, vo, er⟩ := s
  have hst : st = .ready := hready
  have hpr' : pr = false := hpr
  subst hst hpr'
  have hlen : 0 < t.length := List.length_pos.mpr hne
  have key := mockRun_speaking t.length t 0 r p v loc vo er hlen (by omega)
  have hrun : mockRun t.length
      (mockSay ⟨tx, ci, ta, .ready, false, r, p, v, loc, vo, er⟩ t).1 =
      (⟨t, -1, false, .ready, false, r, p, v, loc, vo, er⟩,
       (spans t 0).map (fun q => TTSEvent.sayingWord q.1 q.2) ++
         [TTSEvent.stateChanged .ready]) := key
  refine ⟨rfl, rfl, ?_, ?_, ?_, ?_⟩
  · rw [hrun]
  · rw [hrun]
  · rw [hrun]
  · rw [hrun, spans_zero t hne]

/-- C3 witness: the full run on `"Hello, world!"`. -/
theorem say_terminates_events_witness :
    (mockRun ("Hello, world!".toList).length
        (mockSay mockInit ("Hello, world!".toList)).1).1.state = .ready :=
  (say_terminates_events_amended ("Hello, world!".toList) mockInit
      (by decide) rfl rfl).2.2.1

/-- C4 counterexample: a voice carrying the data token `"fi-FI-9"` derives
the catalog locale `fi-FI` but is not one of the two Finnish catalog
voices: `setVoice` fails, yet the selected locale has been switched from
`en-GB` to `fi-FI` — the failed call is not free of effects. -/
theorem setVoice_commits_locale_counterexample :
    (mockSetVoice mockInit ⟨"Kari".toList, .fiFI, .male, .adult, "fi-FI-9".toList⟩).2
      = false ∧
    (mockSetVoice mockInit ⟨"Kari".toList, .fiFI, .male, .adult, "fi-FI-9".toList⟩).1.locale
      = .fiFI ∧
    mockInit.locale = .enGB := by
  decide

/-- C4 amended: in the mock engine, `setVoice(v)` succeeds exactly when the
locale derived from the data token of `v` is a catalog locale and `v` is an
exact member (full identity tuple) of the voices for that locale; a failure
of the locale check commits nothing, but a failure of the membership check
has already committed the derived locale; the playback state, the selected
voice and the error record are unchanged on any mock failure. The SAPI
engine checks no membership at all: whenever the external native token
creation succeeds (which the force-creating `SpCreateNewToken` grants even
for ids of no enumerated voice), `setVoice` succeeds for *every* voice,
commits its token to the native voice and resets a non-`Ready` engine to
`Ready`; when the token creation fails, it fails after recording a
`Configuration` error — mutating the error record (though, by the inverted
`setError` guard of C5, not the playback state). -/
theorem setVoice_spec_amended (s : MockEngine) (e : SapiEngine) (v : Voice) :
    ((mockSetVoice s v).2 = true ↔
      (mockAvailableLocales.contains (parseMockLocale (localePrefix v.data)) = true ∧
       (mockAvailableVoices (parseMockLocale (localePrefix v.data))).contains v = true)) ∧
    (¬ mockAvailableLocales.contains (parseMockLocale (localePrefix v.data)) = true →
      mockSetVoice s v = (s, false)) ∧
    (mockAvailableLocales.contains (parseMockLocale (localePrefix v.data)) = true →
     ¬ (mockAvailableVoices (parseMockLocale (localePrefix v.data))).contains v = true →
      mockSetVoice s v = ({s with locale := parseMockLocale (localePrefix v.data)}, false)) ∧
    ((mockSetVoice s v).2 = true →
      mockSetVoice s v =
        ({s with locale := parseMockLocale (localePrefix v.data), voice := v}, true)) ∧
    ((mockSetVoice s v).2 = false →
      (mockSetVoice s v).1.state = s.state ∧ (mockSetVoice s v).1.voice = s.voice ∧
      (mockSetVoice s v).1.errorReason = s.errorReason) ∧
    (sapiSetVoice true e v).2.1 = true ∧
    (sapiSetVoice true e v).1.nativeVoiceId = v.data ∧
    (e.state = .ready →
      (sapiSetVoice true e v).1.state = .ready ∧ (sapiSetVoice true e v).2.2 = []) ∧
    (e.state ≠ .ready →
      (sapiSetVoice true e v).1.state = .ready ∧
      (sapiSetVoice true e v).2.2 = [TTSEvent.stateChanged .ready]) ∧
    sapiSetVoice false e v =
      ({e with errorReason := .configuration,
               errorString := "Could not set voice.".toList}, false, []) := by
  have hmock :
      ((mockSetVoice s v).2 = true ↔
        (mockAvailableLocales.contains (parseMockLocale (localePrefix v.data)) = true ∧
         (mockAvailableVoices (parseMockLocale (localePrefix v.data))).contains v = true)) ∧
      (¬ mockAvailableLocales.contains (parseMockLocale (localePrefix v.data)) = true →
        mockSetVoice s v = (s, false)) ∧
      (mockAvailableLocales.contains (parseMockLocale (localePrefix v.data)) = true →
       ¬ (mockAvailableVoices (parseMockLocale (localePrefix v.data))).contains v = true →
        mockSetVoice s v = ({s with locale := parseMockLocale (localePrefix v.data)}, false)) ∧
      ((mockSetVoice s v).2 = true →
        mockSetVoice s v =
          ({s with locale := parseMockLocale (localePrefix v.data), voice := v}, true)) ∧
      ((mockSetVoice s v).2 = false →
        (mockSetVoice s v).1.state = s.state ∧ (mockSetVoice s v).1.voice = s.voice ∧
        (mockSetVoice s v).1.errorReason = s.errorReason) := by
    simp only [mockSetVoice]
    split_ifs with h1 h2 <;> simp_all
  have htrue : sapiSetVoice true e v =
      (if e.state = .ready then
        ({e with nativeVoiceId := v.data}, true, ([] : List TTSEvent))
      else
        ({e with state := .ready, nativeVoiceId := v.data}, true,
         [TTSEvent.stateChanged .ready])) := by
    by_cases h : e.state = .ready
    · simp [sapiSetVoice, h]
    · simp [sapiSetVoice, h]
  have hfail : sapiSetVoice false e v =
      ({e with errorReason := .configuration,
               errorString := "Could not set voice.".toList}, false, []) := by
    simp [sapiSetVoice, sapiSetError]
  refine ⟨hmock.1, hmock.2.1, hmock.2.2.1, hmock.2.2.2.1, hmock.2.2.2.2, ?_, ?_, ?_, ?_, hfail⟩
  · rw [htrue]
    split_ifs <;> rfl
  · rw [htrue]
    split_ifs <;> rfl
  · intro h
    rw [htrue, if_pos h]
    exact ⟨h, rfl⟩
  · intro h
    rw [htrue, if_neg h]
    exact ⟨rfl, rfl⟩

/-- C4 witness: selecting the catalog voice `Anne` succeeds and commits
locale and voice. -/
theorem setVoice_spec_amended_witness :
    mockSetVoice mockInit ⟨"Anne".toList, .enGB, .female, .adult, "en-GB-2".toList⟩ =
      ({mockInit with
          locale := .enGB
          voice := ⟨"Anne".toList, .enGB, .female, .adult, "en-GB-2".toList⟩}, true) :=
  (setVoice_spec_amended mockInit sapiReady
      ⟨"Anne".toList, .enGB, .female, .adult, "en-GB-2".toList⟩).2.2.2.1 (by decide)

/-- C5: as written, `setError` with any real (non-`NoError`) reason only
stores the reason and message and returns — it neither enters the `Error`
state nor emits `errorOccurred`; the guard is inverted relative to the
documented propagation policy. -/
theorem setError_not_surfaced (s : SapiEngine) (reason : ErrorReason)
    (msg : List Char) (h : reason ≠ .noError) :
    sapiSetError s reason msg =
      ({s with errorReason := reason, errorString := msg}, []) := by
  simp [sapiSetError, h]

/-- C5 witness: the `Initialization` failure of the constructor is recorded but
never surfaced. -/
theorem setError_not_surfaced_witness :
    sapiSetError sapiReady .initFailure
        ("Could not initialize text-to-speech engine.".toList) =
      ({sapiReady with
          errorReason := .initFailure
          errorString := "Could not initialize text-to-speech engine.".toList}, []) :=
  setError_not_surfaced sapiReady .initFailure
    ("Could not initialize text-to-speech engine.".toList) (by decide)

/-- C6: `say ""` on the mock engine is not a no-op: it enters `Speaking`,
emits `stateChanged` and starts the timer; the first tick then finds the
empty session text — violating the assertions of the tick — and emits the
word-boundary event `(0, 0)`. In the SAPI engine, `say` guards against the
empty text and really is a no-op. -/
theorem say_empty_not_noop :
    (mockSay mockInit []).1.state = .speaking ∧
    (mockSay mockInit []).2 = [TTSEvent.stateChanged .speaking] ∧
    (mockSay mockInit []).1.timerActive = true ∧
    ¬ mockTickAssertions (mockSay mockInit []).1 ∧
    (mockTick (mockSay mockInit []).1).2 =
      [TTSEvent.sayingWord 0 0, TTSEvent.stateChanged .ready] ∧
    sapiSay sapiReady [] = (sapiReady, []) := by
  refine ⟨rfl, rfl, rfl, ?_, by decide, rfl⟩
  intro hassert
  exact hassert.2 rfl

/-- C7: on `"Hello, world!"` the engine emits exactly the word-boundary
events `(0, 5)` and `(7, 5)` — punctuation and whitespace are skipped. -/
theorem hello_world_events :
    (mockSay mockInit ("Hello, world!".toList)).2 =
      [TTSEvent.stateChanged .speaking] ∧
    (mockRun 13 (mockSay mockInit ("Hello, world!".toList)).1).2 =
      [TTSEvent.sayingWord 0 5, TTSEvent.sayingWord 7 5,
       TTSEvent.stateChanged .ready] := by
  decide

/-- C8 counterexample: in the SAPI engine, `setVolume` performs no range
check: `setVolume 2` reports success and `volume()` afterwards reads back
`2`, not the previous value `1`; and even for the in-range value `0.555`
the readback is the truncation `0.55`, not the value that was set. -/
theorem sapi_setVolume_counterexample :
    (sapiSetVolume sapiReady 2).2 = true ∧
    sapiVolume (sapiSetVolume sapiReady 2).1 = 2 ∧
    sapiVolume sapiReady = 1 ∧
    sapiVolume (sapiSetVolume sapiReady (111 / 200)).1 = 11 / 20 ∧
    (111 / 200 : Rat) ≠ 11 / 20 := by
  refine ⟨rfl, ?_, by norm_num [sapiVolume, sapiReady], ?_, by norm_num⟩
  · simp only [sapiVolume, sapiSetVolume]
    norm_num
    rw [show Int.toNat 200 = 200 from rfl]
    norm_num
  · simp only [sapiVolume, sapiSetVolume]
    norm_num
    rw [show Int.toNat 55 = 55 from rfl]
    norm_num

/-- C8 amended: the mock engine rejects volumes outside `[0, 1]` leaving
everything unchanged and accepts volumes inside, which `volume()` then
reflects exactly; the SAPI engine accepts every value, forwarding the
`USHORT` truncation of `v * 100` to the native voice, so for every `v`
whose conversion is defined (`0 ≤ v * 100 < 65536`) the readback is `v`
rounded down to a whole hundredth — at most `v`, within `1/100` of it, and
in general not `v` itself. -/
theorem setVolume_spec_amended (s : MockEngine) (e : SapiEngine) (v : Rat) :
    (v < 0 ∨ 1 < v → mockSetVolume s v = (s, false)) ∧
    (0 ≤ v → v ≤ 1 → mockSetVolume s v = ({s with volume := v}, true)) ∧
    (sapiSetVolume e v).2 = true ∧
    (0 ≤ v → v * 100 < 65536 →
      sapiVolume (sapiSetVolume e v).1 ≤ v ∧
      v - sapiVolume (sapiSetVolume e v).1 < 1 / 100) := by
  refine ⟨?_, ?_, rfl, ?_⟩
  · intro h
    simp [mockSetVolume, h]
  · intro h0 h1
    have hno : ¬ (v < 0 ∨ 1 < v) := by
      push_neg
      exact ⟨h0, h1⟩
    simp [mockSetVolume, hno]
  · intro h0 _hub
    have hm : (0 : Rat) ≤ v * 100 := by positivity
    have hf0 : 0 ≤ ⌊v * 100⌋ := Int.floor_nonneg.mpr hm
    have hfle : (⌊v * 100⌋ : Rat) ≤ v * 100 := Int.floor_le _
    have hflt : v * 100 < ⌊v * 100⌋ + 1 := Int.lt_floor_add_one _
    have hcast : ((⌊v * 100⌋.toNat : Nat) : Rat) = ((⌊v * 100⌋ : Int) : Rat) := by
      exact_mod_cast congrArg (fun z : Int => (z : Rat)) (Int.toNat_of_nonneg hf0)
    simp only [sapiVolume, sapiSetVolume]
    rw [hcast]
    constructor
    · rw [div_le_iff₀ (by norm_num : (0 : Rat) < 100)]
      exact hfle
    · rw [sub_lt_iff_lt_add, div_add_div_same, lt_div_iff₀ (by norm_num : (0 : Rat) < 100)]
      calc v * 100 < ⌊v * 100⌋ + 1 := hflt
        _ = 1 + (⌊v * 100⌋ : Rat) := by ring

/-- C8 witness: the mock engine rejects `setVolume 2`. -/
theorem setVolume_spec_amended_witness :
    mockSetVolume mockInit 2 = (mockInit, false) :=
  (setVolume_spec_amended mockInit sapiReady 2).1 (Or.inr (by norm_num))

/-- C9 counterexample: a SAPI engine still `Speaking` with a pause pending
is not in `Paused`, yet `resume()` is not a no-op there: it clears the
pending flag and resumes the native voice. -/
theorem sapi_resume_pending_counterexample :
    sapiPausePending.state ≠ .paused ∧
    (sapiResume sapiPausePending).1.pauseRequested = false ∧
    sapiPausePending.pauseRequested = true ∧
    (sapiResume sapiPausePending).2 = true := by
  decide

/-- C9 amended: `resume()` while `Paused` returns to `Speaking` with the
cursor untouched, and the first event of the next tick starts at that same
cursor (no word skipped or repeated); in the mock engine, `resume` in any
other state changes nothing; in the SAPI engine, `resume` is a no-op only
when additionally no pause is pending — with a pause pending it clears the
flag and resumes the native voice even though the state is not `Paused`. -/
theorem resume_spec_amended (s : MockEngine) (e : SapiEngine) :
    (s.state = .paused →
      mockResume s = ({s with timerActive := true, state := .speaking},
                      [TTSEvent.stateChanged .speaking])) ∧
    (s.state = .paused →
      (mockTick (mockResume s).1).2.head? =
        some (TTSEvent.sayingWord s.currentIndex.toNat
                (scanWord (s.text.drop s.currentIndex.toNat)))) ∧
    (s.state ≠ .paused → mockResume s = (s, [])) ∧
    (e.state ≠ .paused → e.pauseRequested = false → sapiResume e = (e, false)) ∧
    (e.pauseRequested = true → sapiResume e = ({e with pauseRequested := false}, true)) := by
  refine ⟨?_, ?_, ?_, ?_, ?_⟩
  · intro h
    simp [mockResume, h]
  · intro h
    simp only [mockResume, h]
    simp only [mockTick]
    split_ifs <;> simp
  · intro h
    simp [mockResume, h]
  · intro h1 h2
    simp [sapiResume, h1, h2]
  · intro h1
    simp [sapiResume, h1]

/-- C9 witness: resuming the `Paused` state reached by
`say "ab cd"; pause; tick` re-enters `Speaking` with the cursor intact. -/
theorem resume_spec_amended_witness :
    mockResume (mockTick (mockPause (mockSay mockInit ("ab cd".toList)).1).1).1 =
      ({(mockTick (mockPause (mockSay mockInit ("ab cd".toList)).1).1).1 with
          timerActive := true, state := .speaking},
       [TTSEvent.stateChanged .speaking]) :=
  (resume_spec_amended
      (mockTick (mockPause (mockSay mockInit ("ab cd".toList)).1).1).1 sapiReady).1
    (by decide)

/-- C10: the word timer runs exactly while the mock engine is `Speaking`:
the invariant holds after construction and is preserved by `say`, `stop`,
`pause`, `resume`, `setRate` and by every tick — and under it a tick can
never fire in `Ready`, `Paused` or `Error`, since the timer is then off. -/
theorem timer_invariant (s : MockEngine) (t : List Char) (r : Rat)
    (h : timerInv s) :
    timerInv mockInit ∧
    timerInv (mockSay s t).1 ∧
    timerInv (mockStop s).1 ∧
    timerInv (mockPause s).1 ∧
    timerInv (mockResume s).1 ∧
    timerInv (mockSetRate s r).1 ∧
    (s.timerActive = true → timerInv (mockTick s).1) ∧
    (s.state ≠ .speaking → s.timerActive = false) := by
  unfold timerInv at h ⊢
  refine ⟨by simp [mockInit], by simp [mockSay], ?_, ?_, ?_,
      by simpa [mockSetRate] using h, ?_, ?_⟩
  · simp only [mockStop]
    split_ifs with h1
    · simpa using h
    · simp
  · simp only [mockPause]
    split_ifs with h1
    · simpa using h
    · simpa using h
  · simp only [mockResume]
    split_ifs with h1
    · simpa using h
    · simp
  · intro hta
    have hsp : s.state = .speaking := h.mp hta
    simp only [mockTick]
    split_ifs with h1 h2 <;> simp [hsp, hta]
  · intro hst
    cases hb : s.timerActive
    · rfl
    · exact absurd (h.mp hb) hst

/-- C10 witness: the invariant after `say "a"` from the freshly constructed
engine. -/
theorem timer_invariant_witness :
    timerInv (mockSay mockInit ("a".toList)).1 :=
  (timer_invariant mockInit ("a".toList) 0 (by simp [timerInv, mockInit])).2.1

end QtSpeech
